import Mathlib

/-!
Verification of the streamprintf format-string scanner and validator
(src/streamprintf.h, template class Printf).

Shallow embedding notes.

The C++ code walks a NUL-terminated format string with a monotone cursor
field _pos that is never rewound; we model the cursor by the remaining
suffix of the format string, a List Char.  A format string coming from C
never contains an embedded NUL, so the suffix reaching the end of the
list corresponds exactly to the cursor reaching the terminating NUL.
All assertion-style checks of the debug build (assertmsg / assert) are
modelled as values of an error enum carried in Except; the model is the
debug build, in which every check is active.

The platform rendering routine my_vsprintf is an external collaborator:
the model records each render as an opaque sink item holding the vetted
single-directive format text and the argument, exactly the two inputs the
code hands to vsprintf.

C strchr subtlety kept by the model: strchr(s, c) considers the
terminating NUL part of s, so strchr(s, 0) is non-null.  Where the code
applies strchr to the current format character, reaching the end of the
format string therefore makes the flags loop (line 189) and the size-
marker test (line 214) consume the terminator and then read past the end
of the string; those paths are modelled as an undefinedBehavior error.
-/

namespace StreamPrintf

/-- Error kinds, one per distinct assertion of the debug build:
tooFewArguments and tooManyArguments are the two ArgumentCountMismatch
messages (lines 76 and 186), invalidFormat and formatTooLong the two
MalformedFormat messages (lines 231/261/354 and 254), typeMismatch the
type-checking message; assertionFailure models a bare assert(false)-style
check and undefinedBehavior an out-of-bounds read of the format string. -/
inductive PrintfError where
  | tooFewArguments
  | tooManyArguments
  | invalidFormat
  | formatTooLong
  | typeMismatch
  | assertionFailure
  | undefinedBehavior
deriving DecidableEq, Repr

/-- The NUL character, used by the code as the "no size marker" sentinel
(sizeChar = 0) and as the string terminator. -/
def nulChar : Char := Char.ofNat 0

/-- enum Size of Printf (line 106): argument size classes. -/
inductive Size where
  | None
  | Short
  | Long
  | Int64
deriving DecidableEq, Repr

/-- enum Type of Printf (lines 107-108): argument categories.  Named Ty
because Type is reserved in Lean. -/
inductive Ty where
  | Int
  | Unsigned
  | Float
  | Char
  | String
  | WideString
  | Pointer
deriving DecidableEq, Repr

/-- One caller-supplied argument, one constructor per operator<< overload
of Printf (lines 78-103).  Numeric payloads are carried but never
inspected by the core; string payloads are carried because the code takes
their length when sizing the render buffer. -/
inductive Arg where
  | bool (b : Bool)
  | short (n : Int)
  | int (n : Int)
  | long (n : Int)
  | int64 (n : Int)
  | ushort (n : Nat)
  | uint (n : Nat)
  | ulong (n : Nat)
  | uint64 (n : Nat)
  | float
  | double
  | longDouble
  | char (c : Char)
  | uchar (c : Char)
  | cstr (s : List Char)
  | custr (s : List Char)
  | stdString (s : List Char)
  | wstr (s : List Char)
  | stdWString (s : List Char)
  | pointer
deriving DecidableEq, Repr

/-- Size tag attached to each overload, first column of the
PRINTF_TYPE(size | type) table at lines 78-103. -/
def Arg.size : Arg → Size
  | .bool _ => Size.None
  | .short _ => Size.Short
  | .int _ => Size.None
  | .long _ => Size.Long
  | .int64 _ => Size.Int64
  | .ushort _ => Size.Short
  | .uint _ => Size.None
  | .ulong _ => Size.Long
  | .uint64 _ => Size.Int64
  | .float => Size.None
  | .double => Size.None
  | .longDouble => Size.Long
  | .char _ => Size.Short
  | .uchar _ => Size.Short
  | .cstr _ => Size.Short
  | .custr _ => Size.Short
  | .stdString _ => Size.Short
  | .wstr _ => Size.Long
  | .stdWString _ => Size.Long
  | .pointer => Size.None

/-- Type tag attached to each overload, second column of the
PRINTF_TYPE(size | type) table at lines 78-103. -/
def Arg.type : Arg → Ty
  | .bool _ => Ty.Int
  | .short _ => Ty.Int
  | .int _ => Ty.Int
  | .long _ => Ty.Int
  | .int64 _ => Ty.Int
  | .ushort _ => Ty.Unsigned
  | .uint _ => Ty.Unsigned
  | .ulong _ => Ty.Unsigned
  | .uint64 _ => Ty.Unsigned
  | .float => Ty.Float
  | .double => Ty.Float
  | .longDouble => Ty.Float
  | .char _ => Ty.Char
  | .uchar _ => Ty.Char
  | .cstr _ => Ty.String
  | .custr _ => Ty.String
  | .stdString _ => Ty.String
  | .wstr _ => Ty.String
  | .stdWString _ => Ty.String
  | .pointer => Ty.Pointer

/-- Build-time configuration: wide is true when CharT is wchar_t (so
sizeof(CharT) differs from sizeof(char)); the two strict flags are the
STREAMPRINTF_STRICT_SIGN and STREAMPRINTF_STRICT_INTSIZE defines. -/
structure Config where
  wide : Bool
  strictSign : Bool
  strictIntSize : Bool
deriving DecidableEq, Repr

/-- The shipped header: CharT = char and both strictness defines
commented out (lines 34 and 46). -/
def defaultConfig : Config := ⟨false, false, false⟩

/-- One unit of sink output: either a single literal character emitted by
OutputStaticText, or the result of one my_vsprintf render, recorded as
the vetted single-directive format text plus the consumed argument. -/
inductive OutItem where
  | lit (c : Char)
  | rendered (fmtText : List Char) (arg : Arg)
deriving DecidableEq, Repr

/-- C strchr as a membership test: strchr(s, c) != NULL.  The terminating
NUL is considered part of every C string, so the test is true when c is
the NUL character (strchr returns a pointer to the terminator). -/
def strchrB (s : List Char) (c : Char) : Bool :=
  if c = nulChar then true else s.contains c

/-- Characters accepted by the flags loop, line 189: strchr of the string
of flag characters. -/
def isFlagChar (c : Char) : Bool :=
  strchrB ['-', '+', '0', ' ', '#'] c

/-- isdigit on the format character (lines 193-199, 206-210). -/
def isDigitChar (c : Char) : Bool :=
  '0' ≤ c && c ≤ '9'

/-- Numeric value accumulated from a digit run, mirroring
width = width*10 + (ch - '0') (lines 198 and 209). -/
def digitsVal (ds : List Char) : Nat :=
  ds.foldl (fun w c => w * 10 + (c.toNat - '0'.toNat)) 0

/-- The flags loop of Do (lines 188-190): consume flag characters.
Reaching the end of the format string means the loop's strchr matched the
terminating NUL, so the loop copies the terminator and then reads past
the end of the string: that outcome is reported as the pair (consumed
flags, none) and treated as undefined behavior by the caller. -/
def spanFlags : List Char → List Char × Option (List Char)
  | [] => ([], none)
  | c :: r =>
    if isFlagChar c then
      let p := spanFlags r
      (c :: p.1, p.2)
    else ([], some (c :: r))

/-- A digit run (the width and precision loops, lines 193-199 and
206-210).  isdigit is false on the NUL terminator, so the end of the
string stops the loop safely. -/
def spanDigits : List Char → List Char × List Char
  | [] => ([], [])
  | c :: r =>
    if isDigitChar c then
      let p := spanDigits r
      (c :: p.1, p.2)
    else ([], c :: r)

/-- The legalPrintfTypeChars table of Do (lines 166-182), as a function
of the STREAMPRINTF_STRICT_SIGN setting; the switch has no case for
WideString (that enumerator is produced by no overload), falling to
default: assert(false), modelled as the none result. -/
def legalPrintfTypeChars (strictSign : Bool) : Ty → Option (List Char)
  | Ty.Int => some (if strictSign then ['d', 'i', 'o', 'x', 'X'] else ['d', 'i', 'u', 'o', 'x', 'X'])
  | Ty.Unsigned => some (if strictSign then ['u', 'o', 'x', 'X'] else ['d', 'i', 'u', 'o', 'x', 'X'])
  | Ty.Float => some ['e', 'E', 'f', 'g', 'G']
  | Ty.Char => some ['c']
  | Ty.String => some ['s', 'p']
  | Ty.Pointer => some ['p']
  | Ty.WideString => none

/-- Lookup in the legal-characters table, turning the default case of the
switch (assert(false)) into an error. -/
def getLegal (strictSign : Bool) (t : Ty) : Except PrintfError (List Char) :=
  match legalPrintfTypeChars strictSign t with
  | some l => .ok l
  | none => .error .assertionFailure

/-- Default size-class resolution and C/S rewriting, lines 234-252 of Do:
when no explicit size marker was parsed (sizeChar is NUL), conversion c/s
resolves to the native width of the format string (h when CharT is char)
and conversion C/S to the opposite width; then C and S are rewritten to
c and s.  Returns the resulting (sizeChar, fmtChar) pair. -/
def resolveSpec (wide : Bool) (sizeChar fmtChar : Char) : Char × Char :=
  let sizeChar' :=
    if sizeChar = nulChar then
      if fmtChar = 'c' ∨ fmtChar = 's' then (if wide then 'l' else 'h')
      else if fmtChar = 'C' ∨ fmtChar = 'S' then (if wide then 'h' else 'l')
      else sizeChar
    else sizeChar
  let fmtChar' :=
    if fmtChar = 'C' then 'c'
    else if fmtChar = 'S' then 's'
    else fmtChar
  (sizeChar', fmtChar')

/-- One fully parsed directive, the state Do has built once line 255 is
reached: the raw text copied into the scratch buffer format[] (leading
percent, flags, width digits, precision, size marker, conversion
character), the resolved size marker and conversion character, the
accumulated width and precision values, and the format-string suffix
after the directive. -/
structure ParsedDirective where
  text : List Char
  sizeChar : Char
  fmtChar : Char
  width : Nat
  precision : Nat
  rest : List Char
deriving DecidableEq, Repr

/-- The parsing phase of Do (lines 185-255) on the format-string suffix
at the cursor.  The first component counts the format[i++] scratch-buffer
writes performed before the parse finished or aborted (the terminating
NUL store of line 255 is not counted); the writes touch indices 0 up to
that count minus one, while the scratch buffer holds 30 characters.  The
length check of line 254 (i < 30) runs only after all those writes. -/
def parseDirective (wide : Bool) (rest : List Char) : Nat × Except PrintfError ParsedDirective :=
  match rest with
  | [] => (1, .error .tooManyArguments)
  | c0 :: r0 =>
    if c0 ≠ '%' then (1, .error .tooManyArguments)
    else
      match spanFlags r0 with
      | (flags, none) => (1 + flags.length + 1, .error .undefinedBehavior)
      | (flags, some r1) =>
        let wq := spanDigits r1
        let width := digitsVal wq.1
        let hasPrec : Bool := match wq.2 with | '.' :: _ => true | _ => false
        let pq := match wq.2 with | '.' :: r => spanDigits r | _ => ([], wq.2)
        let precision := digitsVal pq.1
        let precText : List Char := if hasPrec then '.' :: pq.1 else []
        match pq.2 with
        | [] =>
          -- strchr("hlL", NUL) matches the terminator (line 214): the size
          -- marker is read from the terminator and the cursor runs past the
          -- end of the string.
          (1 + flags.length + wq.1.length + precText.length + 1, .error .undefinedBehavior)
        | c3 :: r4 =>
          let sz : List Char × Char × List Char :=
            if strchrB ['h', 'l', 'L'] c3 then
              ([c3], (if c3 = 'L' then 'l' else c3), r4)
            else
              match c3 :: r4 with
              | 'I' :: '6' :: '4' :: r5 => (['I', '6', '4'], 'I', r5)
              | _ => ([], nulChar, c3 :: r4)
          match sz.2.2 with
          | [] =>
            -- line 231: assert(_fmt[_pos] != NUL), the conversion character
            -- is missing.
            (1 + flags.length + wq.1.length + precText.length + sz.1.length, .error .invalidFormat)
          | fc :: r6 =>
            let text := '%' :: (flags ++ wq.1 ++ precText ++ sz.1 ++ [fc])
            let rs := resolveSpec wide sz.2.1 fc
            if text.length < 30 then
              (text.length, .ok ⟨text, rs.1, rs.2, width, precision, r6⟩)
            else
              (text.length, .error .formatTooLong)

/-- The size-marker switch of the general type-checking branch, lines
274-296 of Do: relation required between the argument's Size tag and the
directive's size marker, under STREAMPRINTF_STRICT_INTSIZE. -/
def intSizeCheck (strictIntSize : Bool) (size : Size) (sizeChar : Char) : Bool :=
  match size with
  | Size.None =>
    if strictIntSize then sizeChar = nulChar else (sizeChar = nulChar ∨ sizeChar = 'l')
  | Size.Long =>
    if strictIntSize then sizeChar = 'l' else (sizeChar = nulChar ∨ sizeChar = 'l')
  | Size.Short => sizeChar = 'h'
  | Size.Int64 => sizeChar = 'I'

/-- The type-checking phase of Do (lines 166-183 and 257-303): the legal
conversion characters for the argument's category, the special cases for
String with conversion p and for Unsigned with Size Short, the general
size switch, and finally membership of the conversion character in the
legal set. -/
def typeCheck (strictSign strictIntSize : Bool) (size : Size) (type : Ty)
    (sizeChar fmtChar : Char) : Except PrintfError Unit :=
  match getLegal strictSign type with
  | .error e => .error e
  | .ok legal =>
    let sizeOk : Except PrintfError Unit :=
      if type = Ty.String ∧ fmtChar = 'p' then
        -- line 261: a %p directive matched against a string may carry no
        -- size marker; the message is "Invalid format specification".
        if sizeChar = nulChar then .ok () else .error .invalidFormat
      else if type = Ty.Unsigned ∧ size = Size.Short then
        -- lines 263-271: unsigned short is either an unsigned short
        -- integer or a wchar_t, disambiguated by the conversion character.
        if fmtChar = 'c' then
          if sizeChar = 'l' then .ok () else .error .typeMismatch
        else
          if sizeChar = 'h' then .ok () else .error .typeMismatch
      else
        if intSizeCheck strictIntSize size sizeChar then .ok () else .error .typeMismatch
    match sizeOk with
    | .error e => .error e
    | .ok _ =>
      -- lines 299-302: the conversion character must be legal for the
      -- category, with c additionally allowed for Unsigned Short.
      if type = Ty.Unsigned ∧ size = Size.Short then
        if fmtChar = 'c' ∨ strchrB legal fmtChar then .ok () else .error .typeMismatch
      else
        if strchrB legal fmtChar then .ok () else .error .typeMismatch

/-- strlen on the narrow-string payload (line 314-315): defined only when
the va_arg actually is a narrow string; anything else is an out-of-type
read, undefined behavior. -/
def strlenNarrow : Arg → Except PrintfError Nat
  | .cstr s => .ok s.length
  | .custr s => .ok s.length
  | .stdString s => .ok s.length
  | _ => .error .undefinedBehavior

/-- wcslen on the wide-string payload (lines 320-321). -/
def strlenWide : Arg → Except PrintfError Nat
  | .wstr s => .ok s.length
  | .stdWString s => .ok s.length
  | _ => .error .undefinedBehavior

/-- The buffer-sizing phase of Do (lines 305-333): for conversion s the
width is first raised to the string's length (narrow or wide according to
the size marker; any other marker fails the assert of line 319), then the
width is raised to the precision and a 30-unit margin is added; the
result is the element count passed to alloca. -/
def computeCapacity (sizeChar fmtChar : Char) (width precision : Nat) (arg : Arg) :
    Except PrintfError Nat :=
  let widthE : Except PrintfError Nat :=
    if fmtChar = 's' then
      match
        (if sizeChar = 'h' then strlenNarrow arg
         else if sizeChar = 'l' then strlenWide arg
         else .error .assertionFailure) with
      | .error e => .error e
      | .ok len => .ok (if len > width then len else width)
    else .ok width
  match widthE with
  | .error e => .error e
  | .ok w1 => .ok ((if precision > w1 then precision else w1) + 30)

/-- OutputStaticText (lines 345-374): copy literal characters to the sink
until an unescaped percent or the end of the string; a percent pair emits
one literal percent and scanning continues; a percent followed by the end
of the string is the malformed-format assert of line 354.  Returns the
emitted characters and the remaining suffix (empty, or starting with the
percent of a directive). -/
def OutputStaticText : List Char → Except PrintfError (List Char × List Char)
  | [] => .ok ([], [])
  | c :: rest =>
    if c = '%' then
      match rest with
      | [] => .error .invalidFormat
      | c2 :: rest2 =>
        if c2 = '%' then
          match OutputStaticText rest2 with
          | .error e => .error e
          | .ok st => .ok ('%' :: st.1, st.2)
        else .ok ([], c :: c2 :: rest2)
    else
      match OutputStaticText rest with
      | .error e => .error e
      | .ok st => .ok (c :: st.1, st.2)

/-- Printf::Do (lines 150-342) for one argument: compute the legal
conversion characters for the argument's type tag (lines 166-183), parse
one directive at the cursor (lines 185-255), type-check it against the
argument (lines 257-303), size the render buffer (lines 305-333), emit
the my_vsprintf render of the vetted single-directive format, and resume
literal scanning (line 341).  Returns the emitted sink items and the new
cursor suffix. -/
def Do (cfg : Config) (rest : List Char) (arg : Arg) :
    Except PrintfError (List OutItem × List Char) :=
  match getLegal cfg.strictSign arg.type with
  | .error e => .error e
  | .ok _ =>
    match (parseDirective cfg.wide rest).2 with
    | .error e => .error e
    | .ok p =>
      match typeCheck cfg.strictSign cfg.strictIntSize arg.size arg.type p.sizeChar p.fmtChar with
      | .error e => .error e
      | .ok _ =>
        match computeCapacity p.sizeChar p.fmtChar p.width p.precision arg with
        | .error e => .error e
        | .ok _ =>
          match OutputStaticText p.rest with
          | .error e => .error e
          | .ok st => .ok (OutItem.rendered p.text arg :: st.1.map OutItem.lit, st.2)

/-- The chain of operator<< calls followed by the destructor check: each
argument is fed to Do in order, and once the arguments are exhausted the
destructor (lines 75-76) asserts that the cursor has reached the end of
the format string, reporting too few arguments otherwise. -/
def runFrom (cfg : Config) : List Char → List Arg → Except PrintfError (List OutItem)
  | rest, [] => if rest = [] then .ok [] else .error .tooFewArguments
  | rest, a :: as =>
    match Do cfg rest a with
    | .error e => .error e
    | .ok s =>
      match runFrom cfg s.2 as with
      | .error e => .error e
      | .ok out => .ok (s.1 ++ out)

/-- One whole formatting call, as performed by the oprintf wrappers
(lines 380-453): the Printf constructor runs OutputStaticText once
(line 74), each argument is pushed through Do, and the destructor checks
that the format string was fully consumed. -/
def runPrintf (cfg : Config) (fmt : List Char) (args : List Arg) :
    Except PrintfError (List OutItem) :=
  match OutputStaticText fmt with
  | .error e => .error e
  | .ok st =>
    match runFrom cfg st.2 args with
    | .error e => .error e
    | .ok out => .ok (st.1.map OutItem.lit ++ out)

/-- A format-string suffix (as left by the constructor's OutputStaticText
run) together with an argument list that matches it exactly: each
argument is accepted by Do for the directive at the cursor, and after the
last one the cursor has reached the end of the string.  This is the
formal reading of a format string with exactly as many directives as
arguments, every argument of a compatible type. -/
inductive Accepts (cfg : Config) : List Char → List Arg → Prop where
  | done : Accepts cfg [] []
  | step {rest : List Char} {a : Arg} {out : List OutItem} {rest' : List Char} {as : List Arg} :
      Do cfg rest a = .ok (out, rest') → Accepts cfg rest' as → Accepts cfg rest (a :: as)

/-- A directive of 33 characters: a percent, 31 repetitions of the left-
justify flag, and conversion d.  Its text exceeds the 30-character
scratch buffer. -/
def longFlagsDirective : List Char := '%' :: (List.replicate 31 '-' ++ ['d'])

/-- Unfolding equation for OutputStaticText on a literal (non-percent)
leading character. -/
theorem outputStaticText_cons_of_ne (c : Char) (l : List Char) (hc : c ≠ '%') :
    OutputStaticText (c :: l) =
      match OutputStaticText l with
      | .error e => .error e
      | .ok st => .ok (c :: st.1, st.2) := by
  rw [OutputStaticText.eq_def]
  exact if_neg hc

/-- Claim C6: a percent immediately followed by another percent, at any
literal scan position, makes the scanner emit exactly one literal
percent, consume both characters and continue scanning; no argument is
consumed (OutputStaticText takes no argument at all). -/
theorem percent_escape_single_literal (pre rest : List Char) (hp : '%' ∉ pre) :
    OutputStaticText (pre ++ '%' :: '%' :: rest) =
      (OutputStaticText rest).map (fun st => (pre ++ '%' :: st.1, st.2)) := by
  induction pre with
  | nil =>
    cases h : OutputStaticText rest with
    | error e => simp [OutputStaticText, h, Except.map]
    | ok st => simp [OutputStaticText, h, Except.map]
  | cons c pre ih =>
    have hc : c ≠ '%' := fun h => hp (h ▸ List.mem_cons_self c pre)
    have hm : '%' ∉ pre := fun h => hp (List.mem_cons_of_mem c h)
    rw [List.cons_append, outputStaticText_cons_of_ne c _ hc, ih hm]
    cases h : OutputStaticText rest <;> simp [Except.map]

/-- Witness for C6 at a concrete scan position. -/
theorem percent_escape_single_literal_witness :
    OutputStaticText (['a'] ++ '%' :: '%' :: ['b']) =
      (OutputStaticText ['b']).map (fun st => (['a'] ++ '%' :: st.1, st.2)) :=
  percent_escape_single_literal ['a'] ['b'] (by decide)

/-- A format string whose only percent is its final character fails the
scan with the malformed-format assert of line 354. -/
theorem trailing_percent_scan (pre : List Char) (hp : '%' ∉ pre) :
    OutputStaticText (pre ++ ['%']) = .error .invalidFormat := by
  induction pre with
  | nil => rfl
  | cons c pre ih =>
    have hc : c ≠ '%' := fun h => hp (h ▸ List.mem_cons_self c pre)
    have hm : '%' ∉ pre := fun h => hp (List.mem_cons_of_mem c h)
    rw [List.cons_append, outputStaticText_cons_of_ne c _ hc, ih hm]

/-- Claim C7 (amended): a format string whose final character is a bare
percent and which contains no other percent fails with the
malformed-format error, for every argument list and configuration; the
failure fires already in the constructor scan.  (When earlier directives
exist the trailing percent need not be reached, and the call can fail
with a different error first: see the counterexample.) -/
theorem trailing_percent_always_malformed (cfg : Config) (pre : List Char)
    (args : List Arg) (hp : '%' ∉ pre) :
    runPrintf cfg (pre ++ ['%']) args = .error .invalidFormat := by
  unfold runPrintf
  rw [trailing_percent_scan pre hp]

/-- Witness for C7 at a concrete input. -/
theorem trailing_percent_always_malformed_witness :
    runPrintf defaultConfig (['a', 'b'] ++ ['%']) [Arg.int 3] = .error .invalidFormat :=
  trailing_percent_always_malformed defaultConfig ['a', 'b'] [Arg.int 3] (by decide)

/-- Counterexample to C7 as stated: the format string percent-d-percent
ends in a bare percent, yet with zero arguments the call fails with the
too-few-arguments assert of the destructor, not with a malformed-format
error: the trailing percent is never reached. -/
theorem trailing_percent_not_always_malformed :
    runPrintf defaultConfig ['%', 'd', '%'] [] = .error .tooFewArguments ∧
    runPrintf defaultConfig ['%', 'd', '%'] [] ≠ .error .invalidFormat ∧
    runPrintf defaultConfig ['%', 'd', '%'] [] ≠ .error .formatTooLong := by
  have h : runPrintf defaultConfig ['%', 'd', '%'] [] = .error .tooFewArguments := rfl
  refine ⟨h, ?_, ?_⟩ <;> rw [h] <;> intro hx <;>
    exact PrintfError.noConfusion (Except.error.inj hx)

/-- Claim C2 (code bug): on a directive of 33 characters the parse
performs 33 scratch-buffer writes, touching indices 30, 31 and 32 of the
30-character buffer, before the length assert of line 254 reports the
directive as too long; the failure does not preempt the out-of-bounds
writes. -/
theorem scratch_buffer_overrun_before_check :
    (parseDirective false longFlagsDirective).2 = .error .formatTooLong ∧
    (parseDirective false longFlagsDirective).1 = 33 ∧
    30 < (parseDirective false longFlagsDirective).1 ∧
    runPrintf defaultConfig longFlagsDirective [Arg.int 0] = .error .formatTooLong := by
  refine ⟨rfl, rfl, ?_, rfl⟩
  rw [show (parseDirective false longFlagsDirective).1 = 33 from rfl]
  decide

/-- Claim C5 (amended): with no explicit size marker, conversion c or s
resolves the size class to the native width of the format string (h for
a narrow format, l for a wide one) and conversion C or S to the opposite
width, C and S being rewritten to c and s before validation; an explicit
size marker takes precedence and is left unchanged by C or S. -/
theorem default_size_class_resolution :
    (∀ w : Bool,
      resolveSpec w nulChar 'c' = ((if w then 'l' else 'h'), 'c') ∧
      resolveSpec w nulChar 's' = ((if w then 'l' else 'h'), 's') ∧
      resolveSpec w nulChar 'C' = ((if w then 'h' else 'l'), 'c') ∧
      resolveSpec w nulChar 'S' = ((if w then 'h' else 'l'), 's')) ∧
    (∀ (w : Bool) (sc : Char), sc ≠ nulChar →
      resolveSpec w sc 'C' = (sc, 'c') ∧ resolveSpec w sc 'S' = (sc, 's')) := by
  constructor
  · intro w
    cases w <;> exact ⟨by decide, by decide, by decide, by decide⟩
  · intro w sc hsc
    constructor <;> simp [resolveSpec, hsc]

/-- Witness for C5 at a concrete marker. -/
theorem default_size_class_resolution_witness :
    resolveSpec false 'h' 'C' = ('h', 'c') ∧ resolveSpec false 'h' 'S' = ('h', 's') :=
  default_size_class_resolution.2 false 'h' (by decide)

/-- Counterexample to C5 as stated: the directive percent-h-C in a
narrow-format string parses with resolved size class h, the native
narrow marker, so an explicit C does not force the opposite (wide)
width when the directive carries an explicit size marker. -/
theorem explicit_marker_beats_wide_conversion :
    (parseDirective false ['%', 'h', 'C']).2 =
      .ok ⟨['%', 'h', 'C'], 'h', 'c', 0, 0, []⟩ ∧ ('h' : Char) ≠ 'l' :=
  ⟨rfl, by decide⟩

/-- Claim C10: a bool argument is pushed with the tag None | Int
(line 78), the same classification as int, so it passes validation and
renders wherever a default-size signed integer does, in particular for
the d and i conversions. -/
theorem bool_classified_default_signed (b : Bool) :
    (Arg.bool b).size = Size.None ∧ (Arg.bool b).type = Ty.Int ∧
    runPrintf defaultConfig ['%', 'd'] [Arg.bool b] =
      .ok [OutItem.rendered ['%', 'd'] (Arg.bool b)] ∧
    runPrintf defaultConfig ['%', 'i'] [Arg.bool b] =
      .ok [OutItem.rendered ['%', 'i'] (Arg.bool b)] :=
  ⟨rfl, rfl, rfl, rfl⟩

/-- Claim C3: with STREAMPRINTF_STRICT_SIGN the conversion characters
accepted for a default-size signed-integer argument are exactly d i o x
X and for a default-size unsigned-integer argument exactly u o x X;
without it both categories accept exactly d i u o x X.  Consequently a
percent-u directive fed a signed int fails with a type mismatch under
strict sign and succeeds without it.  (The NUL character is excluded:
it never reaches the check, the parser having asserted that a
conversion character is present.) -/
theorem strict_sign_legal_conversions :
    (∀ c : Char, c ≠ nulChar →
      (typeCheck true false Size.None Ty.Int nulChar c = .ok () ↔
        c ∈ ['d', 'i', 'o', 'x', 'X'])) ∧
    (∀ c : Char, c ≠ nulChar →
      (typeCheck true false Size.None Ty.Unsigned nulChar c = .ok () ↔
        c ∈ ['u', 'o', 'x', 'X'])) ∧
    (∀ c : Char, c ≠ nulChar →
      (typeCheck false false Size.None Ty.Int nulChar c = .ok () ↔
        c ∈ ['d', 'i', 'u', 'o', 'x', 'X'])) ∧
    (∀ c : Char, c ≠ nulChar →
      (typeCheck false false Size.None Ty.Unsigned nulChar c = .ok () ↔
        c ∈ ['d', 'i', 'u', 'o', 'x', 'X'])) ∧
    runPrintf ⟨false, true, false⟩ ['%', 'u'] [Arg.int 5] = .error .typeMismatch ∧
    runPrintf ⟨false, false, false⟩ ['%', 'u'] [Arg.int 5] =
      .ok [OutItem.rendered ['%', 'u'] (Arg.int 5)] := by
  refine ⟨?_, ?_, ?_, ?_, rfl, rfl⟩ <;> intro c hc <;>
    simp [typeCheck, getLegal, legalPrintfTypeChars, intSizeCheck, strchrB, hc] <;> tauto

/-- Witness for C3 at concrete conversion characters. -/
theorem strict_sign_legal_conversions_witness :
    (typeCheck true false Size.None Ty.Int nulChar 'd' = .ok () ↔
      'd' ∈ ['d', 'i', 'o', 'x', 'X']) ∧
    (typeCheck true false Size.None Ty.Unsigned nulChar 'u' = .ok () ↔
      'u' ∈ ['u', 'o', 'x', 'X']) :=
  ⟨strict_sign_legal_conversions.1 'd' (by decide),
   strict_sign_legal_conversions.2.1 'u' (by decide)⟩

/-- Claim C4: for an argument tagged Unsigned and Short, the type check
passes exactly when the directive's size marker is l if the resolved
conversion character is c and h otherwise (and the conversion character
is legal for the category, c being additionally allowed); every failure
of the check on this tag is a type mismatch. -/
theorem unsigned_short_disambiguation (ss sis : Bool) (sc fc : Char) :
    (typeCheck ss sis Size.Short Ty.Unsigned sc fc = .ok () ↔
      (sc = (if fc = 'c' then 'l' else 'h') ∧
       (fc = 'c' ∨ strchrB ((legalPrintfTypeChars ss Ty.Unsigned).getD []) fc = true))) ∧
    (typeCheck ss sis Size.Short Ty.Unsigned sc fc = .ok () ∨
     typeCheck ss sis Size.Short Ty.Unsigned sc fc = .error .typeMismatch) := by
  cases ss <;>
    constructor <;>
    simp [typeCheck, getLegal, legalPrintfTypeChars] <;>
    split_ifs <;>
    simp_all

/-- Claim C8: under STREAMPRINTF_STRICT_INTSIZE a default-Size argument
requires an empty size marker and a long-Size argument requires the l
marker, exactly; without it, default and long Size both accept exactly
the empty or l marker.  Consequently a percent-l-d directive fed a
default-size int fails with a type mismatch under strict int size and
succeeds without it. -/
theorem strict_int_size_markers :
    (∀ sc : Char, intSizeCheck true Size.None sc = true ↔ sc = nulChar) ∧
    (∀ sc : Char, intSizeCheck true Size.Long sc = true ↔ sc = 'l') ∧
    (∀ sc : Char, intSizeCheck false Size.None sc = true ↔ (sc = nulChar ∨ sc = 'l')) ∧
    (∀ sc : Char, intSizeCheck false Size.Long sc = true ↔ (sc = nulChar ∨ sc = 'l')) ∧
    runPrintf ⟨false, false, true⟩ ['%', 'l', 'd'] [Arg.int 5] = .error .typeMismatch ∧
    runPrintf ⟨false, false, false⟩ ['%', 'l', 'd'] [Arg.int 5] =
      .ok [OutItem.rendered ['%', 'l', 'd'] (Arg.int 5)] := by
  refine ⟨?_, ?_, ?_, ?_, rfl, rfl⟩ <;> intro sc <;> simp [intSizeCheck]

/-- Claim C9: the render-buffer capacity is max(width, precision) plus a
fixed margin of exactly 30 units, where for a string argument the width
is first raised to the greater of the requested width and the string's
length; hence the capacity is at least the string's length plus the
margin. -/
theorem buffer_capacity_margin (sc fc : Char) (w p : Nat) (a : Arg) (s : List Char)
    (hfc : fc ≠ 's') :
    computeCapacity sc fc w p a = .ok (max w p + 30) ∧
    computeCapacity 'h' 's' w p (Arg.cstr s) = .ok (max (max w s.length) p + 30) ∧
    computeCapacity 'l' 's' w p (Arg.wstr s) = .ok (max (max w s.length) p + 30) ∧
    s.length + 30 ≤ max (max w s.length) p + 30 := by
  have hmax : ∀ x y : Nat, (if y > x then y else x) = max x y := by
    intro x y
    split <;> omega
  refine ⟨?_, ?_, ?_, ?_⟩
  · simp [computeCapacity, hfc, hmax]
  · simp [computeCapacity, strlenNarrow, hmax]
    split <;> omega
  · simp [computeCapacity, strlenWide, hmax]
    split <;> omega
  · exact Nat.add_le_add_right
      ((le_max_right w s.length).trans (le_max_left (max w s.length) p)) 30

/-- Witness for C9 at concrete widths, precisions and arguments. -/
theorem buffer_capacity_margin_witness :
    computeCapacity nulChar 'd' 5 7 (Arg.int 3) = .ok (max 5 7 + 30) ∧
    computeCapacity 'h' 's' 5 7 (Arg.cstr ['a', 'b']) =
      .ok (max (max 5 (['a', 'b'] : List Char).length) 7 + 30) ∧
    computeCapacity 'l' 's' 5 7 (Arg.wstr ['a', 'b']) =
      .ok (max (max 5 (['a', 'b'] : List Char).length) 7 + 30) ∧
    (['a', 'b'] : List Char).length + 30 ≤ max (max 5 (['a', 'b'] : List Char).length) 7 + 30 :=
  buffer_capacity_margin nulChar 'd' 5 7 (Arg.int 3) ['a', 'b'] (by decide)

/-- Unfolding equation for runFrom with no argument left: the destructor
check of lines 75-76. -/
theorem runFrom_nil (cfg : Config) (rest : List Char) :
    runFrom cfg rest [] = if rest = [] then .ok [] else .error .tooFewArguments := rfl

/-- Unfolding equation for runFrom on one more argument. -/
theorem runFrom_cons (cfg : Config) (rest : List Char) (a : Arg) (as : List Arg) :
    runFrom cfg rest (a :: as) =
      match Do cfg rest a with
      | .error e => .error e
      | .ok s =>
        match runFrom cfg s.2 as with
        | .error e => .error e
        | .ok out => .ok (s.1 ++ out) := rfl

/-- Do on the exhausted format string: the first scratch write copies
the string terminator, so the leading-percent assert of line 186 fires
with the too-many-arguments message, whatever the argument. -/
theorem do_nil_too_many (cfg : Config) (a : Arg) :
    Do cfg [] a = .error .tooManyArguments := by
  cases a <;> rfl

/-- A successful Do call consumed a directive, so its cursor suffix was
not empty. -/
theorem do_ok_ne_nil {cfg : Config} {rest : List Char} {a : Arg}
    {out : List OutItem} {rest' : List Char}
    (h : Do cfg rest a = .ok (out, rest')) : rest ≠ [] := by
  intro hr
  subst hr
  rw [do_nil_too_many] at h
  exact Except.noConfusion h

/-- With a matching argument list the whole operator<< chain succeeds. -/
theorem accepts_run_ok {cfg : Config} {rest : List Char} {args : List Arg}
    (h : Accepts cfg rest args) : ∃ out, runFrom cfg rest args = .ok out := by
  induction h with
  | done => exact ⟨[], rfl⟩
  | @step rest a out rest' as hdo hacc ih =>
    obtain ⟨out2, h2⟩ := ih
    exact ⟨out ++ out2, by simp [runFrom_cons, hdo, h2]⟩

/-- Dropping the last matching argument leaves the final directive
unconsumed, so the destructor check reports too few arguments. -/
theorem accepts_drop_last_too_few {cfg : Config} (as : List Arg) (a : Arg) :
    ∀ rest, Accepts cfg rest (as ++ [a]) →
      runFrom cfg rest as = .error .tooFewArguments := by
  induction as with
  | nil =>
    intro rest h
    cases h with
    | step hdo hacc => rw [runFrom_nil, if_neg (do_ok_ne_nil hdo)]
  | cons x as ih =>
    intro rest h
    cases h with
    | step hdo hacc => simp [runFrom_cons, hdo, ih _ hacc]

/-- Adding an argument beyond the matching list makes the extra Do call
start a directive on the exhausted format string, reporting too many
arguments. -/
theorem accepts_extra_too_many {cfg : Config} {rest : List Char} {args : List Arg}
    (h : Accepts cfg rest args) (extra : Arg) :
    runFrom cfg rest (args ++ [extra]) = .error .tooManyArguments := by
  induction h with
  | done => simp [runFrom_cons, do_nil_too_many]
  | @step rest a out rest' as hdo hacc ih => simp [runFrom_cons, hdo, ih]

/-- Claim C1: for a format string whose constructor scan succeeds and
whose directives are matched one-to-one by a list of compatible
arguments (Accepts), supplying exactly that list succeeds; dropping the
last argument fails with the too-few-arguments count mismatch, detected
at finalization because the cursor has not reached the end of the format
string; adding one more argument fails with the too-many-arguments count
mismatch, detected when the extra Do call begins a new directive and the
character at the cursor (the terminator) is not a percent. -/
theorem argument_count_mismatch (cfg : Config) (fmt : List Char)
    (out0 : List Char) (r : List Char) (args : List Arg)
    (hscan : OutputStaticText fmt = .ok (out0, r))
    (hacc : Accepts cfg r args) :
    (∃ out, runPrintf cfg fmt args = .ok out) ∧
    (∀ (as : List Arg) (a : Arg), args = as ++ [a] →
      runPrintf cfg fmt as = .error .tooFewArguments) ∧
    (∀ extra : Arg, runPrintf cfg fmt (args ++ [extra]) = .error .tooManyArguments) := by
  have hrun : ∀ xs : List Arg, runPrintf cfg fmt xs =
      (match runFrom cfg r xs with
       | .error e => .error e
       | .ok out => .ok (out0.map OutItem.lit ++ out)) := by
    intro xs
    unfold runPrintf
    rw [hscan]
  refine ⟨?_, ?_, ?_⟩
  · obtain ⟨out, hout⟩ := accepts_run_ok hacc
    exact ⟨out0.map OutItem.lit ++ out, by rw [hrun, hout]⟩
  · intro as a hsplit
    subst hsplit
    rw [hrun, accepts_drop_last_too_few as a r hacc]
  · intro extra
    rw [hrun, accepts_extra_too_many hacc extra]

/-- Witness for C1: the one-directive format percent-d, matched by one
int argument; zero arguments report too few, two report too many. -/
theorem argument_count_mismatch_witness :
    runPrintf defaultConfig ['%', 'd'] [] = .error .tooFewArguments ∧
    runPrintf defaultConfig ['%', 'd'] [Arg.int 7, Arg.int 8] = .error .tooManyArguments := by
  have h := argument_count_mismatch defaultConfig ['%', 'd'] [] ['%', 'd'] [Arg.int 7]
    rfl (Accepts.step rfl Accepts.done)
  exact ⟨h.2.1 [] (Arg.int 7) rfl, h.2.2 (Arg.int 8)⟩

end StreamPrintf
